import Mathlib

/-!
Shallow embedding of the coc-airdrop-bot automation engine
(TypeScript) together with proofs about its retry policy, selector
resolution, state classification, claim workflow, wallet-creation
workflow, ledger resume logic, link assignment and PIN generation.

Each definition mirrors one function of the source; device
interactions (Appium/WebdriverIO calls) are modelled as
environment-supplied outcomes, since they are I/O against a live
device.  Definitions come first, followed by all theorems.
-/

namespace CocBot

/-- A value thrown by a TypeScript operation: either an `Error` object
(modelled by its message) or any other thrown value (modelled by the
string `String(err)` would produce). -/
inductive Thrown where
  | error (message : String)
  | nonError (stringRep : String)
deriving DecidableEq

/-- The normalization `err instanceof Error ? err : new Error(String(err))`
performed by `withRetry` (src/unnamed/part_005, line 22) and by the
workflow `catch` blocks. -/
def toError : Thrown → Thrown
  | .error m => .error m
  | .nonError s => .error s

/-- `err.message` for an `Error`, `String(err)` otherwise (the string the
code stores as the failure message after normalization). -/
def Thrown.message : Thrown → String
  | .error m => m
  | .nonError s => s

/-! ## Retry policy — `withRetry` (src/unnamed/part_005) -/

/-- `RetryOptions` of src/unnamed/part_005 (the `onRetry` callback is
modelled by recording its invocations in the outcome trace). -/
structure RetryOptions where
  maxRetries : Nat
  delayMs : Nat
  backoffMultiplier : Nat := 2

/-- Result of one `withRetry` invocation: the resolved/rejected value,
the number of times the wrapped operation was invoked, the `(attempt,
error)` pairs passed to `onRetry` in order, and the waits (ms) performed
between attempts, in order. -/
structure RetryOutcome (T : Type) where
  result : Except Thrown T
  calls : Nat
  onRetryCalls : List (Nat × Thrown)
  waits : List Nat

/-- The loop body of `withRetry`.  `fn i` is the outcome of the `i`-th
invocation of the wrapped operation (0-based); `attempt` is the 1-based
loop counter of the source and `remaining = maxRetries + 1 - attempt`,
so `remaining = 0` exactly when the source's `attempt > maxRetries`
break fires. -/
def runRetry (fn : Nat → Except Thrown T) (delayMs backoffMultiplier : Nat) :
    Nat → Nat → RetryOutcome T
  | attempt, remaining =>
    match fn (attempt - 1) with
    | .ok v => ⟨.ok v, 1, [], []⟩
    | .error err =>
      let lastError := toError err
      match remaining with
      | 0 => ⟨.error lastError, 1, [], []⟩
      | r + 1 =>
        let waitTime := delayMs * backoffMultiplier ^ (attempt - 1)
        let rest := runRetry fn delayMs backoffMultiplier (attempt + 1) r
        ⟨rest.result, rest.calls + 1,
         (attempt, lastError) :: rest.onRetryCalls,
         waitTime :: rest.waits⟩

/-- `withRetry(fn, options)` (src/unnamed/part_005, lines 10-42). -/
def withRetry (fn : Nat → Except Thrown T) (options : RetryOptions) : RetryOutcome T :=
  runRetry fn options.delayMs options.backoffMultiplier 1 options.maxRetries

/-! ## PIN generation — `generatePin` (src/unnamed/part_002, config) -/

/-- The decimal digit character for `n < 10`. -/
def digitChar (n : Nat) : Char := Char.ofNat (48 + n)

/-- Decimal digits of a natural number, most significant first, as
produced by JavaScript `String(n)` for a non-negative integer. -/
def natToDigits (n : Nat) : List Char :=
  if h : n < 10 then [digitChar n]
  else natToDigits (n / 10) ++ [digitChar (n % 10)]
decreasing_by exact Nat.div_lt_self (by omega) (by omega)

/-- JavaScript `String(n)` for a non-negative integer `n`. -/
def natToString (n : Nat) : String := String.mk (natToDigits n)

/-- JavaScript `s.padStart(targetLength, pad)` for a single pad character. -/
def padStart (s : String) (targetLength : Nat) (pad : Char) : String :=
  if s.length < targetLength then
    String.mk (List.replicate (targetLength - s.length) pad) ++ s
  else s

/-- `generatePin(index, basePin)` (src/unnamed/part_002, lines 124-126):
`String(basePin + index).padStart(6, "0")`. -/
def generatePin (index : Nat) (basePin : Nat := 632700) : String :=
  padStart (natToString (basePin + index)) 6 '0'

/-! ## Selector resolution — `AppiumDriver.findByMultipleSelectors`
(src/src/automation/appium-driver.ts, lines 108-132) -/

/-- `SelectorDef` (appium-driver.ts, lines 8-16). -/
structure SelectorDef where
  strategy : String
  value : String
deriving DecidableEq

/-- The candidate loop of `findByMultipleSelectors`: `env sel` is the
outcome of `driver.$(…)` followed by `element.isExisting()` for one
candidate — either a throw (transport failure, caught by the per-
candidate `catch` and treated as try-next) or the element with its
existence flag.  First component is the returned element (`none` models
the final `return null`); second component is the list of candidates
attempted, in order. -/
def findLoop (env : SelectorDef → Except Unit (ε × Bool)) :
    List SelectorDef → Option ε × List SelectorDef
  | [] => (none, [])
  | sel :: rest =>
    match env sel with
    | .ok (el, true) => (some el, [sel])
    | .ok (_, false) =>
      let r := findLoop env rest
      (r.1, sel :: r.2)
    | .error _ =>
      let r := findLoop env rest
      (r.1, sel :: r.2)

/-- `findByMultipleSelectors(selectors)` including the initial
`getDriver()` guard: with no initialized driver it throws
(appium-driver.ts, lines 60-65); otherwise the candidate loop runs to
completion and the call never throws. -/
def findByMultipleSelectors (driver : Option Unit)
    (env : SelectorDef → Except Unit (ε × Bool)) (selectors : List SelectorDef) :
    Except String (Option ε) :=
  match driver with
  | none => .error "Appium driver not initialized. Call initialize() first."
  | some _ => .ok (findLoop env selectors).1

/-- The element a candidate's attempt yields: `some` exactly when the
existence check ran without throwing and returned `true`. -/
def hitOf : Except Unit (ε × Bool) → Option ε
  | .ok (el, true) => some el
  | _ => none

/-! ## Session release — `AppiumDriver.cleanup`
(appium-driver.ts, lines 236-247) -/

/-- `cleanup()` modelled on the driver-handle state (`some` =
initialized, `none` = already released or never initialized).
`deleteSession` is environment-supplied and may throw; the `catch` only
logs.  The result records the new handle state (always `none`) and
whether `deleteSession` was invoked; the `Except` wrapper expresses
that no exception escapes the method. -/
def cleanup (deleteSession : Except Thrown Unit) (driver : Option Unit) :
    Except Thrown (Option Unit × Bool) :=
  match driver with
  | none => .ok (none, false)
  | some _ =>
    match deleteSession with
    | .ok _ => .ok (none, true)
    | .error _ => .ok (none, true)

/-! ## State classification — `MiniAppClaimer.detectWebViewState` /
`detectNativeState` (src/unnamed/part_004, lines 281-369) -/

/-- `MiniAppState` (part_004, lines 7-13). -/
inductive MiniAppState where
  | loading
  | signup
  | claim_available
  | already_claimed
  | error
  | unknown
deriving DecidableEq

/-- The string value of a `MiniAppState` (the TypeScript value is this
string itself). -/
def MiniAppState.name : MiniAppState → String
  | .loading => "loading"
  | .signup => "signup"
  | .claim_available => "claim_available"
  | .already_claimed => "already_claimed"
  | .error => "error"
  | .unknown => "unknown"

/-- JavaScript `s.toLowerCase()` for ASCII content: lower-case each
character. -/
def strToLower (s : String) : String := String.mk (s.data.map Char.toLower)

/-- Auxiliary for `includes`: whether `sub` occurs in the character
list at any position. -/
def includesList (sub : List Char) : List Char → Bool
  | [] => sub.isEmpty
  | c :: rest => sub.isPrefixOf (c :: rest) || includesList sub rest

/-- JavaScript `s.includes(sub)`: substring containment. -/
def includes (s sub : String) : Bool := includesList sub.data s.data

/-- `WEB_SELECTORS.loading` (part_004, lines 67-71). -/
def webSelectorsLoading : List String :=
  ["[class*=\x27loading\x27]", "[class*=\x27spinner\x27]", ".loader"]

/-- `WEB_SELECTORS.alreadyClaimed` (part_004, lines 59-64). -/
def webSelectorsAlreadyClaimed : List String :=
  ["[class*=\x27claimed\x27]", "[class*=\x27success\x27]",
   "text*=\x27Already claimed\x27", "text*=\x27Completed\x27"]

/-- `WEB_SELECTORS.error` (part_004, lines 74-78). -/
def webSelectorsError : List String :=
  ["[class*=\x27error\x27]", "[class*=\x27fail\x27]", ".error-message"]

/-- `WEB_SELECTORS.signup` (part_004, lines 81-86). -/
def webSelectorsSignup : List String :=
  ["form[class*=\x27signup\x27]", "form[class*=\x27register\x27]",
   "button:has-text(\"Sign Up\")", "button:has-text(\"Register\")"]

/-- `WEB_SELECTORS.claimButton` (part_004, lines 46-56). -/
def webSelectorsClaimButton : List String :=
  ["button.claim-btn", "button[data-action=\"claim\"]", "a[href*=\"claim\"]",
   "button.btn-primary", "button:has-text(\"Claim\")", "button:has-text(\"Join\")",
   "button:has-text(\"Start\")", "[class*=\x27claim\x27]", "[class*=\x27join\x27]"]

/-- One inner loop of `detectWebViewState`: for each CSS selector,
`findElement` + `isDisplayed`, with a per-selector try/catch treating a
throw as a non-match; `env sel` is that attempt's outcome.  Returns
whether some selector of the list is currently displayed. -/
def anyDisplayed (env : String → Except Unit Bool) : List String → Bool
  | [] => false
  | sel :: rest =>
    match env sel with
    | .ok true => true
    | _ => anyDisplayed env rest

/-- `detectWebViewState` (part_004, lines 281-342): the ordered battery
of content checks over the embedded surface.  The outer try/catch is
unreachable because every inner iteration is individually guarded. -/
def detectWebViewState (env : String → Except Unit Bool) : MiniAppState :=
  if anyDisplayed env webSelectorsLoading then .loading
  else if anyDisplayed env webSelectorsAlreadyClaimed then .already_claimed
  else if anyDisplayed env webSelectorsError then .error
  else if anyDisplayed env webSelectorsSignup then .signup
  else if anyDisplayed env webSelectorsClaimButton then .claim_available
  else .unknown

/-- `detectNativeState` (part_004, lines 344-369): the native fallback
classifier over the lower-cased page source; `pageSource` is the
`getPageSource()` outcome (a throw yields `unknown` via the catch). -/
def detectNativeState (pageSource : Except Thrown String) : MiniAppState :=
  match pageSource with
  | .error _ => .unknown
  | .ok src =>
    let sourceLower := strToLower src
    if includes sourceLower "loading" || includes sourceLower "spinner" then
      .loading
    else if includes sourceLower "already claimed" || includes sourceLower "completed" then
      .already_claimed
    else if includes sourceLower "claim" || includes sourceLower "join" then
      .claim_available
    else if includes sourceLower "sign up" || includes sourceLower "register" then
      .signup
    else if includes sourceLower "error" || includes sourceLower "failed" then
      .error
    else .unknown

/-- Modelled from the spec: the native fallback classifier with the
signal order the specification claims for it — loading → completion →
error → input-required → action-available, the same fixed order as the
embedded-surface path.  Compare with `detectNativeState`, whose third,
fourth and fifth checks are ordered action-available → input-required →
error instead. -/
def detectNativeStateSpecOrder (pageSource : Except Thrown String) : MiniAppState :=
  match pageSource with
  | .error _ => .unknown
  | .ok src =>
    let sourceLower := strToLower src
    if includes sourceLower "loading" || includes sourceLower "spinner" then
      .loading
    else if includes sourceLower "already claimed" || includes sourceLower "completed" then
      .already_claimed
    else if includes sourceLower "error" || includes sourceLower "failed" then
      .error
    else if includes sourceLower "sign up" || includes sourceLower "register" then
      .signup
    else if includes sourceLower "claim" || includes sourceLower "join" then
      .claim_available
    else .unknown

/-! ## Claim workflow — `MiniAppClaimer.performClaim`
(src/unnamed/part_004, lines 145-261) -/

/-- `ClaimResult` (part_004, lines 15-20). -/
structure ClaimResult where
  success : Bool
  state : MiniAppState
  error : Option String := none
  screenshotPath : Option String := none
deriving DecidableEq

/-- Device-level outcomes one `performClaim` run observes: the results
of the awaited calls `waitForMiniAppLoad`, `detectCurrentState`,
`clickClaimButton`, `confirmTransaction` and `verifyClaimSuccess` (each
either resolves or throws), and the path `takeDebugScreenshot` returns
for a given name (`takeDebugScreenshot` itself never throws: it catches
internally and returns `""` on failure, screenshot.ts lines 15-26). -/
structure ClaimEnv where
  loadResult : Except Thrown Bool
  stateResult : Except Thrown MiniAppState
  clickResult : Except Thrown Bool
  confirmResult : Except Thrown Bool
  verifyResult : Except Thrown Bool
  shot : String → String

/-- The final `catch` block of `performClaim` (part_004, lines 247-260). -/
def claimCatch (env : ClaimEnv) (err : Thrown) : ClaimResult :=
  { success := false, state := .error, error := some err.message,
    screenshotPath := some (env.shot "claim_flow_error") }

/-- `performClaim()` (part_004, lines 145-261).  Returns the
`ClaimResult` together with whether `clickClaimButton` was invoked.
The Lean function is total — mirroring that every exception is consumed
by the final `catch`, so the caller always receives a `ClaimResult`. -/
def performClaim (env : ClaimEnv) : ClaimResult × Bool :=
  match env.loadResult with
  | .error e => (claimCatch env e, false)
  | .ok false =>
    ({ success := false, state := .loading,
       error := some "MiniApp failed to load within timeout",
       screenshotPath := some (env.shot "miniapp_load_timeout") }, false)
  | .ok true =>
    match env.stateResult with
    | .error e => (claimCatch env e, false)
    | .ok .already_claimed =>
      ({ success := true, state := .already_claimed }, false)
    | .ok .claim_available =>
      (match env.clickResult with
      | .error e => (claimCatch env e, true)
      | .ok false =>
        ({ success := false, state := .error,
           error := some "Failed to click claim button",
           screenshotPath := some (env.shot "claim_click_failed") }, true)
      | .ok true =>
        match env.confirmResult with
        | .error e => (claimCatch env e, true)
        | .ok _ =>
          match env.verifyResult with
          | .error e => (claimCatch env e, true)
          | .ok verified =>
            ({ success := verified,
               state := if verified then .already_claimed else .unknown,
               screenshotPath := some
                 (env.shot (if verified then "claim_success" else "claim_unverified")) },
             true))
    | .ok .signup =>
      ({ success := false, state := .signup,
         error := some "Signup form detected, cannot auto-claim",
         screenshotPath := some (env.shot "miniapp_signup_needed") }, false)
    | .ok .error =>
      ({ success := false, state := .error,
         error := some "MiniApp is in error state",
         screenshotPath := some (env.shot "miniapp_error_state") }, false)
    | .ok st =>
      ({ success := false, state := .unknown,
         error := some ("Unknown miniapp state: " ++ st.name),
         screenshotPath := some (env.shot "miniapp_unknown_state") }, false)

/-! ## Wallet creation — `WalletCreator.createWallet`
(src/src/automation/wallet-creator.ts, lines 106-174) -/

/-- The `status` tag of `WalletData` (config, line 93). -/
inductive WalletStatus where
  | created
  | failed
deriving DecidableEq

/-- `WalletData` (src/unnamed/part_002, config, lines 87-95). -/
structure WalletData where
  id : Nat
  walletName : String
  walletAddress : String
  pin : String
  createdAt : String
  status : WalletStatus
  errorMessage : Option String := none
deriving DecidableEq

/-- `readWalletName` (wallet-creator.ts, lines 312-330).  `el` models
the wallet-name lookup: `none` when `findByMultipleSelectors` returned
`null`, otherwise the `getText()` outcome of the found element.
Returns `""` when nothing was found, the text was empty, or `getText`
threw (the catch). -/
def readWalletName (el : Option (Except Thrown String)) : String :=
  match el with
  | some (.ok t) => if t = "" then "" else t
  | some (.error _) => ""
  | none => ""

/-- `readWalletAddress` (wallet-creator.ts, lines 332-350): like
`readWalletName`, but the text must additionally start with `0x`. -/
def readWalletAddress (el : Option (Except Thrown String)) : String :=
  match el with
  | some (.ok t) => if t ≠ "" ∧ t.startsWith "0x" then t else ""
  | some (.error _) => ""
  | none => ""

/-- Outcomes of the awaited steps of one `createWallet` run.  Steps 1-6
(`clickCreateNewWallet`, `handlePasskeyDialog`, `enterPin`,
`confirmPin`, `dismissDialogs`, `waitForWalletCreation`) each either
complete or throw; the reads of step 7 and the screenshot of step 8 are
internally caught and never throw.  `now` is `new Date().toISOString()`. -/
structure CreateEnv where
  clickCreate : Except Thrown Unit
  passkey : Except Thrown Unit
  pinEntry : Except Thrown Unit
  pinConfirm : Except Thrown Unit
  dismiss : Except Thrown Unit
  waitCreation : Except Thrown Unit
  nameEl : Option (Except Thrown String)
  addressEl : Option (Except Thrown String)
  now : String

/-- The sequencing of steps 1-6 of `createWallet` inside its `try`
block: the first throw aborts the rest. -/
def walletSteps (env : CreateEnv) : Except Thrown Unit := do
  let _ ← env.clickCreate
  let _ ← env.passkey
  let _ ← env.pinEntry
  let _ ← env.pinConfirm
  let _ ← env.dismiss
  env.waitCreation

/-- `createWallet(index)` (wallet-creator.ts, lines 106-174): on
completion of steps 1-6 it reads the name/address (possibly empty) and
returns a `created` record; a throw anywhere in the `try` yields a
`failed` record with `errorMessage` set from the thrown value. -/
def createWallet (env : CreateEnv) (index basePin : Nat) : WalletData :=
  let pin := generatePin index basePin
  match walletSteps env with
  | .ok _ =>
    { id := index,
      walletName := readWalletName env.nameEl,
      walletAddress := readWalletAddress env.addressEl,
      pin := pin, createdAt := env.now, status := .created }
  | .error err =>
    { id := index, walletName := "", walletAddress := "",
      pin := pin, createdAt := env.now, status := .failed,
      errorMessage := some err.message }

/-! ## Resumable ledger iteration — `AccountManager`
(src/unnamed/part_002, lines 14-52) and the `runClaim` loop
(src/src/index.ts, lines 46-163) -/

/-- `claimStatus` values of `AccountData` (config, line 175). -/
inductive ClaimStatus where
  | pending
  | claimed
  | failed
  | skipped
deriving DecidableEq

/-- `AccountData` (src/unnamed/part_002, config, lines 169-179). -/
structure AccountData where
  id : Nat
  email : String
  password : String
  walletAddress : String
  recoveryPhrase : String
  claimStatus : ClaimStatus
  claimLink : String
  lastAttempt : String
  errorMessage : Option String := none
deriving DecidableEq

/-- `AccountManager` iteration state: the pending snapshot taken by
`loadPendingAccounts` and the cursor advanced by `getNextAccount`. -/
structure AccountManagerState where
  pendingAccounts : List AccountData
  currentIndex : Nat

/-- `loadPendingAccounts()` (part_002, lines 14-24) applied to the rows
`loadAccounts` returned: keeps exactly the rows whose `claimStatus` is
`"pending"`, in ledger order, and resets the cursor. -/
def loadPendingAccounts (allAccounts : List AccountData) : AccountManagerState :=
  { pendingAccounts :=
      allAccounts.filter (fun a => decide (a.claimStatus = ClaimStatus.pending)),
    currentIndex := 0 }

/-- `getNextAccount()` (part_002, lines 45-52). -/
def getNextAccount (s : AccountManagerState) : Option AccountData × AccountManagerState :=
  if h : s.currentIndex < s.pendingAccounts.length then
    (some (s.pendingAccounts.get ⟨s.currentIndex, h⟩),
     { s with currentIndex := s.currentIndex + 1 })
  else (none, s)

/-- The account loop of `runClaim` (index.ts, lines 46-163): the
sequence of accounts one run processes, obtained by calling
`getNextAccount` until it yields `null` (`getNextAccount` is inlined
here; `processLoop_unfold` below re-states the loop in its terms).  The
per-account body (launch, login, claim, `updateStatus`) writes to the
store but never touches the manager's pending snapshot or cursor, so
the iteration is fully determined by the manager state. -/
def processLoop (s : AccountManagerState) : List AccountData :=
  if h : s.currentIndex < s.pendingAccounts.length then
    s.pendingAccounts.get ⟨s.currentIndex, h⟩ ::
      processLoop { s with currentIndex := s.currentIndex + 1 }
  else []
termination_by s.pendingAccounts.length - s.currentIndex

/-! ## Link assignment — `AccountManager.assignLinksToAccounts`
(src/unnamed/part_002, lines 26-43) -/

/-- One iteration of the `assignLinksToAccounts` loop for the account at
position `i`: positions below `links.length` are assigned `links[i]`
unconditionally; later positions keep a non-empty `claimLink` and
otherwise receive `links[0] || ""`. -/
def assignLink (links : List String) (i : Nat) (a : AccountData) : AccountData :=
  if h : i < links.length then
    { a with claimLink := links.get ⟨i, h⟩ }
  else if a.claimLink = "" then
    { a with claimLink := links.headD "" }
  else a

/-- The loop of `assignLinksToAccounts`, walking the account list with
its position. -/
def assignLinksGo (links : List String) : Nat → List AccountData → List AccountData
  | _, [] => []
  | i, a :: rest => assignLink links i a :: assignLinksGo links (i + 1) rest

/-- `assignLinksToAccounts(accounts, links)` (part_002, lines 26-43);
in-place mutation of the rows is modelled by returning the updated
list. -/
def assignLinksToAccounts (accounts : List AccountData) (links : List String) :
    List AccountData :=
  assignLinksGo links 0 accounts

/-- A concrete lookup environment used to witness the resolver
contract: selector value `"a"` throws, `"b"` exists with element `7`,
anything else exists with element `9`. -/
def witnessSelectorEnv : SelectorDef → Except Unit (Nat × Bool) :=
  fun s =>
    if s.value = "a" then .error ()
    else if s.value = "b" then .ok (7, true)
    else .ok (9, true)

/-!
# Theorems
-/

/-! ## Retry policy lemmas -/

theorem runRetry_ok (fn : Nat → Except Thrown T) (d b a r : Nat) (v : T)
    (h : fn (a - 1) = .ok v) :
    runRetry fn d b a r = ⟨.ok v, 1, [], []⟩ := by
  rw [runRetry, h]

theorem runRetry_err_zero (fn : Nat → Except Thrown T) (d b a : Nat) (e : Thrown)
    (h : fn (a - 1) = .error e) :
    runRetry fn d b a 0 = ⟨.error (toError e), 1, [], []⟩ := by
  rw [runRetry, h]

theorem runRetry_err_succ (fn : Nat → Except Thrown T) (d b a r : Nat) (e : Thrown)
    (h : fn (a - 1) = .error e) :
    runRetry fn d b a (r + 1) =
      ⟨(runRetry fn d b (a + 1) r).result,
       (runRetry fn d b (a + 1) r).calls + 1,
       (a, toError e) :: (runRetry fn d b (a + 1) r).onRetryCalls,
       (d * b ^ (a - 1)) :: (runRetry fn d b (a + 1) r).waits⟩ := by
  rw [runRetry, h]

/-- When every invocation fails, `runRetry` starting at attempt `c + 1`
performs `r + 1` further invocations, retries with attempts
`c+1, …, c+r`, waits `d * b ^ (attempt - 1)` each time, and finally
rejects with the normalized last error. -/
theorem runRetry_allFail (T : Type) (e : Nat → Thrown) (d b : Nat) :
    ∀ r c,
      runRetry (fun i => (Except.error (e i) : Except Thrown T)) d b (c + 1) r =
        ⟨.error (toError (e (c + r))), r + 1,
         (List.range' (c + 1) r).map (fun a => (a, toError (e (a - 1)))),
         (List.range' (c + 1) r).map (fun a => d * b ^ (a - 1))⟩ := by
  intro r
  induction r with
  | zero =>
    intro c
    rw [runRetry_err_zero _ d b (c + 1) (e c) rfl]
    rfl
  | succ r ih =>
    intro c
    rw [runRetry_err_succ _ d b (c + 1) r (e c) rfl, ih (c + 1)]
    have h0 : c + 1 + r = c + (r + 1) := by omega
    rw [h0]
    rfl

/-- When invocations `c, …, c+m-1` fail and invocation `c+m` succeeds,
`runRetry` starting at attempt `c + 1` with at least `m` retries left
returns the success value after `m` retries. -/
theorem runRetry_failsThenSucceeds (T : Type) (fn : Nat → Except Thrown T)
    (e : Nat → Thrown) (v : T) (k d b : Nat)
    (hfail : ∀ i, i < k → fn i = .error (e i)) (hsucc : fn k = .ok v) :
    ∀ m c r, k = c + m → m ≤ r →
      runRetry fn d b (c + 1) r =
        ⟨.ok v, m + 1,
         (List.range' (c + 1) m).map (fun a => (a, toError (e (a - 1)))),
         (List.range' (c + 1) m).map (fun a => d * b ^ (a - 1))⟩ := by
  intro m
  induction m with
  | zero =>
    intro c r hk _
    have : fn c = .ok v := by rw [show c = k by omega]; exact hsucc
    rw [runRetry_ok fn d b (c + 1) r v this]
    rfl
  | succ m ih =>
    intro c r hk hmr
    have hc : fn c = .error (e c) := hfail c (by omega)
    match r, hmr with
    | r + 1, _ =>
      rw [runRetry_err_succ fn d b (c + 1) r (e c) hc,
          ih (c + 1) r (by omega) (by omega)]
      rfl

/-- Full description of `withRetry` on an operation failing at every
invocation: `m + 1` calls, retries at attempts `1, …, m`, waits
`delayMs * backoffMultiplier ^ (attempt - 1)`, final rejection with the
normalized last error. -/
theorem withRetry_exhausts (T : Type) (e : Nat → Thrown) (m d b : Nat) :
    withRetry (fun i => (Except.error (e i) : Except Thrown T)) ⟨m, d, b⟩ =
      ⟨.error (toError (e m)), m + 1,
       (List.range' 1 m).map (fun a => (a, toError (e (a - 1)))),
       (List.range' 1 m).map (fun a => d * b ^ (a - 1))⟩ := by
  have h := runRetry_allFail T e d b m 0
  simpa [withRetry] using h

/-! ## Decimal length lemmas -/

theorem natToDigits_ne_nil (n : Nat) : natToDigits n ≠ [] := by
  rw [natToDigits]
  split <;> simp

theorem natToDigits_length_pos (n : Nat) : 0 < (natToDigits n).length :=
  List.length_pos.mpr (natToDigits_ne_nil n)

theorem natToDigits_length_le_iff (k : Nat) :
    ∀ n, (natToDigits n).length ≤ k + 1 ↔ n < 10 ^ (k + 1) := by
  induction k with
  | zero =>
    intro n
    rw [natToDigits]
    split
    · rename_i h
      simp only [List.length_cons, List.length_nil, pow_one]
      omega
    · rename_i h
      have hp := natToDigits_length_pos (n / 10)
      rw [List.length_append]
      simp only [List.length_cons, List.length_nil, pow_one]
      omega
  | succ k ih =>
    intro n
    rw [natToDigits]
    split
    · rename_i h
      simp only [List.length_cons, List.length_nil]
      have h10 : (10:Nat) ≤ 10 ^ (k + 1 + 1) := by
        calc (10:Nat) = 10 ^ 1 := (pow_one 10).symm
        _ ≤ 10 ^ (k + 1 + 1) := Nat.pow_le_pow_right (by omega) (by omega)
      omega
    · rename_i h
      rw [List.length_append]
      simp only [List.length_cons, List.length_nil]
      have hdiv := ih (n / 10)
      have hiff : n / 10 < 10 ^ (k + 1) ↔ n < 10 ^ (k + 1 + 1) := by
        have hpow : 10 ^ (k + 1 + 1) = 10 ^ (k + 1) * 10 := pow_succ 10 (k + 1)
        rw [Nat.div_lt_iff_lt_mul (by omega), hpow]
      omega

theorem natToString_length_eq (n : Nat) :
    (natToString n).length = (natToDigits n).length := rfl

theorem natToString_length_le_six_iff (n : Nat) :
    (natToString n).length ≤ 6 ↔ n ≤ 999999 := by
  have h := natToDigits_length_le_iff 5 n
  norm_num at h
  rw [natToString_length_eq]
  omega

theorem natToString_length_pos (n : Nat) : 0 < (natToString n).length := by
  rw [natToString_length_eq]
  exact natToDigits_length_pos n

theorem padStart_spec (s : String) (t : Nat) (p : Char) :
    padStart s t p = String.mk (List.replicate (t - s.length) p ++ s.data) ∧
    (padStart s t p).length = max t s.length := by
  unfold padStart
  by_cases hlt : s.length < t
  · rw [if_pos hlt]
    constructor
    · rfl
    · show (List.replicate (t - s.length) p ++ s.data).length = _
      rw [List.length_append, List.length_replicate]
      have : s.data.length = s.length := rfl
      omega
  · rw [if_neg hlt]
    have h0 : t - s.length = 0 := by omega
    constructor
    · rw [h0]
      rfl
    · have : max t s.length = s.length := Nat.max_eq_right (by omega)
      rw [this]

/-! ## Claim theorems: retry policy (C2, C3) -/

/-- C2 (counterexample): an operation that always rejects with the
non-`Error` value `"boom"`, run with `maxRetries = 0`: `withRetry`
invokes it once (= m + 1) but re-raises `new Error("boom")` — not the
very value the operation threw, which is normalized rather than passed
through unchanged. -/
theorem claim_C2_counterexample :
    (withRetry (fun _ => (Except.error (Thrown.nonError "boom") : Except Thrown Nat))
        ⟨0, 100, 2⟩).calls = 1 ∧
    (withRetry (fun _ => (Except.error (Thrown.nonError "boom") : Except Thrown Nat))
        ⟨0, 100, 2⟩).result = .error (.error "boom") ∧
    Thrown.error "boom" ≠ Thrown.nonError "boom" :=
  ⟨rfl, rfl, by simp⟩

/-- C2 (amended): for an operation that fails on every invocation and
`maxRetries = m`, `withRetry` invokes the operation exactly `m + 1`
times and then re-raises the normalized final error
(`err instanceof Error ? err : new Error(String(err))`): an `Error`
value is re-raised unchanged, while any other thrown value is wrapped
into an `Error` carrying its string representation. -/
theorem claim_C2_theorem (T : Type) (e : Nat → Thrown) (m d b : Nat) :
    (withRetry (fun i => (Except.error (e i) : Except Thrown T)) ⟨m, d, b⟩).calls
        = m + 1 ∧
    (withRetry (fun i => (Except.error (e i) : Except Thrown T)) ⟨m, d, b⟩).result
        = .error (toError (e m)) ∧
    (∀ msg, toError (.error msg) = .error msg) := by
  rw [withRetry_exhausts]
  exact ⟨rfl, rfl, fun _ => rfl⟩

/-- C3: for an operation that fails exactly on invocations `0, …, k-1`
and succeeds on invocation `k`, with `maxRetries ≥ k`, `withRetry`
resolves with the success value, invokes the operation `k + 1` times,
invokes `onRetry` exactly `k` times with the strictly increasing attempt
numbers `1, …, k` (the list `List.range' 1 k`), and before the retry
following failed attempt `a` waits
`delayMs * backoffMultiplier ^ (a - 1)`. -/
theorem claim_C3_theorem (T : Type) (fn : Nat → Except Thrown T) (e : Nat → Thrown)
    (v : T) (k m d b : Nat)
    (hfail : ∀ i, i < k → fn i = .error (e i)) (hsucc : fn k = .ok v) (hkm : k ≤ m) :
    (withRetry fn ⟨m, d, b⟩).result = .ok v ∧
    (withRetry fn ⟨m, d, b⟩).calls = k + 1 ∧
    (withRetry fn ⟨m, d, b⟩).onRetryCalls
        = (List.range' 1 k).map (fun a => (a, toError (e (a - 1)))) ∧
    (withRetry fn ⟨m, d, b⟩).onRetryCalls.map Prod.fst = List.range' 1 k ∧
    (withRetry fn ⟨m, d, b⟩).waits
        = (List.range' 1 k).map (fun a => d * b ^ (a - 1)) := by
  have h := runRetry_failsThenSucceeds T fn e v k d b hfail hsucc k 0 m (by omega) hkm
  have h1 : withRetry fn ⟨m, d, b⟩ =
      ⟨.ok v, k + 1,
       (List.range' 1 k).map (fun a => (a, toError (e (a - 1)))),
       (List.range' 1 k).map (fun a => d * b ^ (a - 1))⟩ := by
    simpa [withRetry] using h
  rw [h1]
  refine ⟨rfl, rfl, rfl, ?_, rfl⟩
  have hcomp : (Prod.fst ∘ fun a => (a, toError (e (a - 1)))) = id := rfl
  rw [List.map_map, hcomp, List.map_id]

/-- Witness for `claim_C3_theorem`: an operation failing twice then
returning `42`, with `maxRetries = 3`, base delay `100` and multiplier
`2`: success, retries at attempts `1, 2`, waits `100, 200`. -/
theorem claim_C3_witness :
    (withRetry (fun i => if i < 2 then Except.error (Thrown.error "fail")
        else Except.ok 42) ⟨3, 100, 2⟩).result = .ok 42 ∧
    (withRetry (fun i => if i < 2 then Except.error (Thrown.error "fail")
        else Except.ok 42) ⟨3, 100, 2⟩).calls = 3 ∧
    (withRetry (fun i => if i < 2 then Except.error (Thrown.error "fail")
        else Except.ok 42) ⟨3, 100, 2⟩).onRetryCalls
      = [(1, .error "fail"), (2, .error "fail")] ∧
    (withRetry (fun i => if i < 2 then Except.error (Thrown.error "fail")
        else Except.ok 42) ⟨3, 100, 2⟩).waits = [100, 200] := by
  have h := claim_C3_theorem Nat
    (fun i => if i < 2 then Except.error (Thrown.error "fail") else Except.ok 42)
    (fun _ => Thrown.error "fail") 42 2 3 100 2
    (by
      intro i hi
      match i, hi with
      | 0, _ => rfl
      | 1, _ => rfl
      | n + 2, hcon => exact absurd hcon (by omega))
    rfl (by omega)
  refine ⟨h.1, h.2.1, ?_, ?_⟩
  · rw [h.2.2.1]
    rfl
  · rw [h.2.2.2.2]
    rfl

/-! ## Claim theorem: PIN format (C10) -/

/-- C10: `generatePin(index, basePin)` is the decimal string of
`basePin + index` left-padded with `0` to at least 6 characters; its
length is exactly 6 precisely when `basePin + index ≤ 999999`, and is
the (longer) full decimal length otherwise. -/
theorem claim_C10_theorem (index basePin : Nat) :
    generatePin index basePin
      = String.mk (List.replicate (6 - (natToString (basePin + index)).length) '0'
          ++ natToDigits (basePin + index)) ∧
    6 ≤ (generatePin index basePin).length ∧
    ((generatePin index basePin).length = 6 ↔ basePin + index ≤ 999999) ∧
    (generatePin index basePin).length
      = max 6 (natToString (basePin + index)).length := by
  have hspec := padStart_spec (natToString (basePin + index)) 6 '0'
  have hiff := natToString_length_le_six_iff (basePin + index)
  unfold generatePin
  refine ⟨hspec.1, ?_, ?_, hspec.2⟩
  · rw [hspec.2]
    exact Nat.le_max_left _ _
  · rw [hspec.2]
    rcases Nat.le_total (natToString (basePin + index)).length 6 with hle | hge
    · rw [Nat.max_eq_left hle]
      exact ⟨fun _ => hiff.mp hle, fun _ => rfl⟩
    · rw [Nat.max_eq_right hge]
      constructor
      · intro h6
        exact hiff.mp (by omega)
      · intro hn
        have := hiff.mpr hn
        omega

/-! ## Claim theorems: selector resolution (C4) and session cleanup (C9) -/

theorem findLoop_all_miss (env : SelectorDef → Except Unit (ε × Bool)) :
    ∀ sels, (∀ s ∈ sels, hitOf (env s) = none) →
      findLoop env sels = (none, sels) := by
  intro sels
  induction sels with
  | nil => intro _; rfl
  | cons sel rest ih =>
    intro h
    have hs := h sel (List.mem_cons_self sel rest)
    have hrest := ih (fun s hs2 => h s (List.mem_cons_of_mem sel hs2))
    cases henv : env sel with
    | error u => simp [findLoop, henv, hrest]
    | ok p =>
      obtain ⟨el, exb⟩ := p
      cases exb
      · simp [findLoop, henv, hrest]
      · rw [henv] at hs
        simp [hitOf] at hs

theorem findLoop_first_hit (env : SelectorDef → Except Unit (ε × Bool)) (el : ε) :
    ∀ sels1 sel sels2, (∀ s ∈ sels1, hitOf (env s) = none) →
      env sel = .ok (el, true) →
      findLoop env (sels1 ++ sel :: sels2) = (some el, sels1 ++ [sel]) := by
  intro sels1
  induction sels1 with
  | nil =>
    intro sel sels2 _ hhit
    simp [findLoop, hhit]
  | cons s rest ih =>
    intro sel sels2 h hhit
    have hs := h s (List.mem_cons_self s rest)
    have htail := ih sel sels2 (fun x hx => h x (List.mem_cons_of_mem s hx)) hhit
    cases henv : env s with
    | error u => simp [findLoop, henv, htail]
    | ok p =>
      obtain ⟨el2, exb⟩ := p
      cases exb
      · simp [findLoop, henv, htail]
      · rw [henv] at hs
        simp [hitOf] at hs

/-- C4: `findByMultipleSelectors` tries candidates strictly in list
order: with every candidate before `sel` missing (non-existent, or its
lookup throwing — both treated as try-next), and `sel` existing, it
attempts exactly the prefix up to and including `sel`, in order, and
returns `sel`'s element; when no candidate hits, it returns the final
`null` without raising (`.ok none`). -/
theorem claim_C4_theorem (ε : Type) (env : SelectorDef → Except Unit (ε × Bool)) :
    (∀ sels1 sel sels2 el,
      (∀ s ∈ sels1, hitOf (env s) = none) → env sel = .ok (el, true) →
        findByMultipleSelectors (some ()) env (sels1 ++ sel :: sels2) = .ok (some el) ∧
        (findLoop env (sels1 ++ sel :: sels2)).2 = sels1 ++ [sel]) ∧
    (∀ sels, (∀ s ∈ sels, hitOf (env s) = none) →
      findByMultipleSelectors (some ()) env sels = .ok none) := by
  constructor
  · intro sels1 sel sels2 el h1 h2
    have hloop := findLoop_first_hit env el sels1 sel sels2 h1 h2
    constructor
    · simp [findByMultipleSelectors, hloop]
    · rw [hloop]
  · intro sels h
    have hloop := findLoop_all_miss env sels h
    simp [findByMultipleSelectors, hloop]

/-- Witness for `claim_C4_theorem`: candidates `[A, B, C]` where `A`'s
lookup throws, `B` exists with element `7`, `C` exists with element `9`:
the resolver attempts `A` then `B` (never `C`) and returns `7`; on the
list `[A]`, where nothing hits, it returns `.ok none`. -/
theorem claim_C4_witness :
    findByMultipleSelectors (some ()) witnessSelectorEnv
      [⟨"xpath", "a"⟩, ⟨"xpath", "b"⟩, ⟨"xpath", "c"⟩] = .ok (some 7) ∧
    (findLoop witnessSelectorEnv
      [⟨"xpath", "a"⟩, ⟨"xpath", "b"⟩, ⟨"xpath", "c"⟩]).2
      = [⟨"xpath", "a"⟩, ⟨"xpath", "b"⟩] ∧
    findByMultipleSelectors (some ()) witnessSelectorEnv
      [⟨"xpath", "a"⟩] = .ok none := by
  have h1 := (claim_C4_theorem Nat witnessSelectorEnv).1
    [⟨"xpath", "a"⟩] ⟨"xpath", "b"⟩ [⟨"xpath", "c"⟩] 7
    (by
      intro s hs
      simp only [List.mem_singleton] at hs
      subst hs
      rfl)
    rfl
  have h2 := (claim_C4_theorem Nat witnessSelectorEnv).2 [⟨"xpath", "a"⟩]
    (by
      intro s hs
      simp only [List.mem_singleton] at hs
      subst hs
      rfl)
  exact ⟨h1.1, h1.2, h2⟩

/-- C9: `cleanup` never lets an exception escape (the result is always
`.ok`), always leaves the driver handle `null`, swallows a failing
`deleteSession`, and a second call — or a call on a never-initialized
driver — is a no-op (it does not invoke `deleteSession`) with the same
final state. -/
theorem claim_C9_theorem (del del2 : Except Thrown Unit) (driver : Option Unit) :
    cleanup del driver = .ok (none, driver.isSome) ∧
    cleanup del2 none = .ok (none, false) := by
  constructor
  · cases driver with
    | none => rfl
    | some u => cases del <;> rfl
  · rfl

/-! ## Claim theorems: state classification (C5) -/

/-- C5 (counterexample): the native fallback classifier does not use
the claimed order loading → completion → error → input-required →
action-available.  On the page source `"claim error"` — which shows
both an error signal and an action-available signal, and no loading or
completion signal — `detectNativeState` returns `claim_available`,
whereas that order would return `error` (as the spec-modelled
`detectNativeStateSpecOrder` does). -/
theorem claim_C5_counterexample :
    detectNativeState (.ok "claim error") = .claim_available ∧
    detectNativeStateSpecOrder (.ok "claim error") = .error ∧
    includes (strToLower "claim error") "error" = true ∧
    MiniAppState.claim_available ≠ MiniAppState.error := by
  refine ⟨by decide, by decide, by decide, by simp⟩

/-- C5 (amended): both classifier paths return the first matching
signal and `unknown` when no signal matches, and in both paths a
loading signal takes priority over everything else (in particular over
an action-available signal); but the two paths do not share one order:
the embedded-surface path checks loading → completion → error →
input-required → action-available, while the native fallback checks
loading → completion → action-available → input-required → error.  A
`getPageSource` throw makes the native path return `unknown`. -/
theorem claim_C5_theorem (env : String → Except Unit Bool) (src : String) :
    (anyDisplayed env webSelectorsLoading = true →
      detectWebViewState env = .loading) ∧
    (anyDisplayed env webSelectorsLoading = false →
      anyDisplayed env webSelectorsAlreadyClaimed = true →
      detectWebViewState env = .already_claimed) ∧
    (anyDisplayed env webSelectorsLoading = false →
      anyDisplayed env webSelectorsAlreadyClaimed = false →
      anyDisplayed env webSelectorsError = true →
      detectWebViewState env = .error) ∧
    (anyDisplayed env webSelectorsLoading = false →
      anyDisplayed env webSelectorsAlreadyClaimed = false →
      anyDisplayed env webSelectorsError = false →
      anyDisplayed env webSelectorsSignup = true →
      detectWebViewState env = .signup) ∧
    (anyDisplayed env webSelectorsLoading = false →
      anyDisplayed env webSelectorsAlreadyClaimed = false →
      anyDisplayed env webSelectorsError = false →
      anyDisplayed env webSelectorsSignup = false →
      anyDisplayed env webSelectorsClaimButton = true →
      detectWebViewState env = .claim_available) ∧
    (anyDisplayed env webSelectorsLoading = false →
      anyDisplayed env webSelectorsAlreadyClaimed = false →
      anyDisplayed env webSelectorsError = false →
      anyDisplayed env webSelectorsSignup = false →
      anyDisplayed env webSelectorsClaimButton = false →
      detectWebViewState env = .unknown) ∧
    ((includes (strToLower src) "loading" || includes (strToLower src) "spinner") = true →
      detectNativeState (.ok src) = .loading) ∧
    ((includes (strToLower src) "loading" || includes (strToLower src) "spinner") = false →
      (includes (strToLower src) "already claimed" || includes (strToLower src) "completed") = true →
      detectNativeState (.ok src) = .already_claimed) ∧
    ((includes (strToLower src) "loading" || includes (strToLower src) "spinner") = false →
      (includes (strToLower src) "already claimed" || includes (strToLower src) "completed") = false →
      (includes (strToLower src) "claim" || includes (strToLower src) "join") = true →
      detectNativeState (.ok src) = .claim_available) ∧
    ((includes (strToLower src) "loading" || includes (strToLower src) "spinner") = false →
      (includes (strToLower src) "already claimed" || includes (strToLower src) "completed") = false →
      (includes (strToLower src) "claim" || includes (strToLower src) "join") = false →
      (includes (strToLower src) "sign up" || includes (strToLower src) "register") = true →
      detectNativeState (.ok src) = .signup) ∧
    ((includes (strToLower src) "loading" || includes (strToLower src) "spinner") = false →
      (includes (strToLower src) "already claimed" || includes (strToLower src) "completed") = false →
      (includes (strToLower src) "claim" || includes (strToLower src) "join") = false →
      (includes (strToLower src) "sign up" || includes (strToLower src) "register") = false →
      (includes (strToLower src) "error" || includes (strToLower src) "failed") = true →
      detectNativeState (.ok src) = .error) ∧
    ((includes (strToLower src) "loading" || includes (strToLower src) "spinner") = false →
      (includes (strToLower src) "already claimed" || includes (strToLower src) "completed") = false →
      (includes (strToLower src) "claim" || includes (strToLower src) "join") = false →
      (includes (strToLower src) "sign up" || includes (strToLower src) "register") = false →
      (includes (strToLower src) "error" || includes (strToLower src) "failed") = false →
      detectNativeState (.ok src) = .unknown) ∧
    (∀ er, detectNativeState (.error er) = .unknown) := by
  refine ⟨?_, ?_, ?_, ?_, ?_, ?_, ?_, ?_, ?_, ?_, ?_, ?_, ?_⟩
  · intro h1
    simp [detectWebViewState, h1]
  · intro h1 h2
    simp [detectWebViewState, h1, h2]
  · intro h1 h2 h3
    simp [detectWebViewState, h1, h2, h3]
  · intro h1 h2 h3 h4
    simp [detectWebViewState, h1, h2, h3, h4]
  · intro h1 h2 h3 h4 h5
    simp [detectWebViewState, h1, h2, h3, h4, h5]
  · intro h1 h2 h3 h4 h5
    simp [detectWebViewState, h1, h2, h3, h4, h5]
  · intro h1
    simp [detectNativeState, h1]
  · intro h1 h2
    simp [detectNativeState, h1, h2]
  · intro h1 h2 h3
    simp [detectNativeState, h1, h2, h3]
  · intro h1 h2 h3 h4
    simp [detectNativeState, h1, h2, h3, h4]
  · intro h1 h2 h3 h4 h5
    simp [detectNativeState, h1, h2, h3, h4, h5]
  · intro h1 h2 h3 h4 h5
    simp [detectNativeState, h1, h2, h3, h4, h5]
  · intro er
    rfl

/-- Witness for `claim_C5_theorem`: a surface where every selector is
displayed (so both the loading and the action-available signals are
present) classifies as `loading`; a page source showing both a loading
and a claim signal also classifies as `loading`. -/
theorem claim_C5_witness :
    detectWebViewState (fun _ => .ok true) = .loading ∧
    detectNativeState (.ok "loading claim") = .loading := by
  constructor
  · exact (claim_C5_theorem (fun _ => .ok true) "x").1 rfl
  · exact (claim_C5_theorem (fun _ => .ok true) "loading claim").2.2.2.2.2.2.1 (by decide)

/-! ## Claim theorems: claim workflow terminal decision (C6) -/

/-- C6: `performClaim`'s terminal decision branches on the classified
state — `already_claimed` yields `{success := true}` without invoking
the claim-click step; `signup` yields a manual-intervention failure
without attempting the claim; `error` and `unknown` yield failures
carrying a diagnostic screenshot path; and a thrown exception is
converted by the final catch into a `ClaimResult` (the model is a total
function into `ClaimResult × Bool`, so the caller always receives a
result). -/
theorem claim_C6_theorem (env : ClaimEnv) :
    (env.loadResult = .ok true → env.stateResult = .ok .already_claimed →
      performClaim env = ({ success := true, state := .already_claimed }, false)) ∧
    (env.loadResult = .ok true → env.stateResult = .ok .signup →
      performClaim env =
        ({ success := false, state := .signup,
           error := some "Signup form detected, cannot auto-claim",
           screenshotPath := some (env.shot "miniapp_signup_needed") }, false)) ∧
    (env.loadResult = .ok true → env.stateResult = .ok .error →
      performClaim env =
        ({ success := false, state := .error,
           error := some "MiniApp is in error state",
           screenshotPath := some (env.shot "miniapp_error_state") }, false)) ∧
    (env.loadResult = .ok true → env.stateResult = .ok .unknown →
      performClaim env =
        ({ success := false, state := .unknown,
           error := some ("Unknown miniapp state: " ++ MiniAppState.unknown.name),
           screenshotPath := some (env.shot "miniapp_unknown_state") }, false)) ∧
    (∀ er, env.loadResult = .error er →
      performClaim env = (claimCatch env er, false)) := by
  refine ⟨?_, ?_, ?_, ?_, ?_⟩
  · intro h1 h2
    simp [performClaim, h1, h2]
  · intro h1 h2
    simp [performClaim, h1, h2]
  · intro h1 h2
    simp [performClaim, h1, h2]
  · intro h1 h2
    simp [performClaim, h1, h2]
  · intro er h1
    simp [performClaim, h1]

/-- Witness for `claim_C6_theorem`: with the classifier reporting
`already_claimed` the run returns `{success := true}` without clicking;
with `signup` it returns the manual-intervention failure. -/
theorem claim_C6_witness :
    performClaim ⟨.ok true, .ok .already_claimed, .ok true, .ok true, .ok true, fun _ => "p"⟩
      = ({ success := true, state := .already_claimed }, false) ∧
    performClaim ⟨.ok true, .ok .signup, .ok true, .ok true, .ok true, fun _ => "p"⟩
      = ({ success := false, state := .signup,
           error := some "Signup form detected, cannot auto-claim",
           screenshotPath := some "p" }, false) := by
  constructor
  · exact (claim_C6_theorem _).1 rfl rfl
  · exact (claim_C6_theorem _).2.1 rfl rfl

/-! ## Claim theorems: wallet-record invariant (C1) -/

/-- C1 (counterexample): a run in which every wizard step completes but
neither the wallet-name element nor the address element is found on the
home screen: `createWallet` still returns a record with status
`"created"`, yet both `walletName` and `walletAddress` are empty — the
success-implies-non-empty-fields half of the claimed invariant fails on
the code. -/
theorem claim_C1_counterexample :
    (createWallet ⟨.ok (), .ok (), .ok (), .ok (), .ok (), .ok (), none, none, "t"⟩
        1 632700).status = .created ∧
    (createWallet ⟨.ok (), .ok (), .ok (), .ok (), .ok (), .ok (), none, none, "t"⟩
        1 632700).walletName = "" ∧
    (createWallet ⟨.ok (), .ok (), .ok (), .ok (), .ok (), .ok (), none, none, "t"⟩
        1 632700).walletAddress = "" :=
  ⟨rfl, rfl, rfl⟩

/-- C1 (amended): every record `createWallet` produces has status
`"failed"` exactly when an error message is present; a failed record
carries the thrown error's message (so it is non-empty whenever that
message is); a created record has no error message and carries the
generated PIN — but its `walletName`/`walletAddress` are whatever could
be read from the home screen and may be empty. -/
theorem claim_C1_theorem (env : CreateEnv) (index basePin : Nat) :
    ((createWallet env index basePin).status = .failed ↔
      ((createWallet env index basePin).errorMessage).isSome) ∧
    (∀ e, walletSteps env = .error e →
      (createWallet env index basePin).status = .failed ∧
      (createWallet env index basePin).errorMessage = some e.message) ∧
    ((createWallet env index basePin).status = .created →
      (createWallet env index basePin).errorMessage = none) ∧
    (createWallet env index basePin).pin = generatePin index basePin := by
  cases h : walletSteps env with
  | ok u => refine ⟨?_, ?_, ?_, ?_⟩ <;> simp [createWallet, h]
  | error e => refine ⟨?_, ?_, ?_, ?_⟩ <;> simp [createWallet, h]

/-- Witness for `claim_C1_theorem`: a run whose first step throws
`Error("boom")` yields a failed record carrying the message `"boom"`. -/
theorem claim_C1_witness :
    (createWallet ⟨.error (.error "boom"), .ok (), .ok (), .ok (), .ok (), .ok (),
        none, none, "t"⟩ 5 632700).status = .failed ∧
    (createWallet ⟨.error (.error "boom"), .ok (), .ok (), .ok (), .ok (), .ok (),
        none, none, "t"⟩ 5 632700).errorMessage = some "boom" ∧
    (createWallet ⟨.error (.error "boom"), .ok (), .ok (), .ok (), .ok (), .ok (),
        none, none, "t"⟩ 5 632700).errorMessage.isSome := by
  have h := claim_C1_theorem
    ⟨.error (.error "boom"), .ok (), .ok (), .ok (), .ok (), .ok (), none, none, "t"⟩
    5 632700
  have h2 := h.2.1 (.error "boom") rfl
  exact ⟨h2.1, h2.2, h.1.mp h2.1⟩

/-! ## Claim theorems: resume over pending rows (C7) -/

theorem processLoop_unfold (s : AccountManagerState) :
    processLoop s =
      match getNextAccount s with
      | (none, _) => []
      | (some a, s2) => a :: processLoop s2 := by
  by_cases h : s.currentIndex < s.pendingAccounts.length
  · rw [processLoop, dif_pos h, getNextAccount, dif_pos h]
  · rw [processLoop, dif_neg h, getNextAccount, dif_neg h]

theorem processLoop_eq_drop (l : List AccountData) :
    ∀ i, processLoop ⟨l, i⟩ = l.drop i := by
  have key : ∀ n i, l.length - i ≤ n → processLoop ⟨l, i⟩ = l.drop i := by
    intro n
    induction n with
    | zero =>
      intro i hi
      have hlen : l.length ≤ i := by omega
      rw [processLoop, dif_neg (by simp; omega)]
      exact (List.drop_eq_nil_of_le hlen).symm
    | succ n ih =>
      intro i hi
      by_cases h : i < l.length
      · rw [processLoop, dif_pos (by simpa using h)]
        rw [show ({ pendingAccounts := l, currentIndex := i + 1 } : AccountManagerState)
              = ⟨l, i + 1⟩ from rfl]
        rw [ih (i + 1) (by omega)]
        rw [List.drop_eq_getElem_cons h]
        rfl
      · rw [processLoop, dif_neg (by simpa using h)]
        exact (List.drop_eq_nil_of_le (by omega)).symm
  intro i
  exact key l.length i (by omega)

theorem length_filter_add_length_filter_not (p : α → Bool) (l : List α) :
    (l.filter p).length + (l.filter (fun a => !p a)).length = l.length := by
  induction l with
  | nil => rfl
  | cons a t ih =>
    cases hp : p a <;> simp [List.filter_cons, hp] <;> omega

/-- C7: one `runClaim` run processes exactly the rows whose
`claimStatus` was `"pending"` when the ledger was loaded — in ledger
order (a sublist of the ledger, so each row at most once), touching no
row that was already claimed, failed or skipped; with `M` total rows of
which `N` are already resolved, exactly `M − N` rows are processed. -/
theorem claim_C7_theorem (allAccounts : List AccountData) :
    processLoop (loadPendingAccounts allAccounts)
        = allAccounts.filter (fun a => decide (a.claimStatus = ClaimStatus.pending)) ∧
    (∀ a ∈ processLoop (loadPendingAccounts allAccounts),
      a.claimStatus = ClaimStatus.pending) ∧
    (processLoop (loadPendingAccounts allAccounts)).Sublist allAccounts ∧
    (processLoop (loadPendingAccounts allAccounts)).length
        = allAccounts.length -
          (allAccounts.filter
            (fun a => !decide (a.claimStatus = ClaimStatus.pending))).length := by
  have hmain : processLoop (loadPendingAccounts allAccounts)
      = allAccounts.filter (fun a => decide (a.claimStatus = ClaimStatus.pending)) := by
    have h := processLoop_eq_drop
      (allAccounts.filter (fun a => decide (a.claimStatus = ClaimStatus.pending))) 0
    simpa [loadPendingAccounts] using h
  refine ⟨hmain, ?_, ?_, ?_⟩
  · intro a ha
    rw [hmain] at ha
    have h := List.of_mem_filter ha
    simpa using h
  · rw [hmain]
    exact List.filter_sublist _
  · rw [hmain]
    have hsplit := length_filter_add_length_filter_not
      (fun a => decide (a.claimStatus = ClaimStatus.pending)) allAccounts
    omega

/-- Witness for `claim_C7_theorem`: a three-row ledger whose middle row
is already claimed: the run processes exactly the first and third rows,
in that order — `3 − 1` rows. -/
theorem claim_C7_witness :
    processLoop (loadPendingAccounts
      [⟨1, "a", "p", "", "", .pending, "", "", none⟩,
       ⟨2, "b", "p", "", "", .claimed, "", "", none⟩,
       ⟨3, "c", "p", "", "", .pending, "", "", none⟩])
      = [⟨1, "a", "p", "", "", .pending, "", "", none⟩,
         ⟨3, "c", "p", "", "", .pending, "", "", none⟩] ∧
    (processLoop (loadPendingAccounts
      [⟨1, "a", "p", "", "", .pending, "", "", none⟩,
       ⟨2, "b", "p", "", "", .claimed, "", "", none⟩,
       ⟨3, "c", "p", "", "", .pending, "", "", none⟩])).length = 3 - 1 := by
  have h := claim_C7_theorem
    [⟨1, "a", "p", "", "", .pending, "", "", none⟩,
     ⟨2, "b", "p", "", "", .claimed, "", "", none⟩,
     ⟨3, "c", "p", "", "", .pending, "", "", none⟩]
  constructor
  · rw [h.1]
    rfl
  · rw [h.2.2.2]
    rfl

/-! ## Claim theorems: link assignment fallback (C8) -/

theorem assignLinksGo_length (links : List String) :
    ∀ (l : List AccountData) (i0 : Nat),
      (assignLinksGo links i0 l).length = l.length := by
  intro l
  induction l with
  | nil => intro i0; rfl
  | cons a t ih => intro i0; simp [assignLinksGo, ih]

theorem assignLinksGo_getElem (links : List String) :
    ∀ (l : List AccountData) (i0 i : Nat),
      (assignLinksGo links i0 l)[i]?
        = (l[i]?).map (fun a => assignLink links (i0 + i) a) := by
  intro l
  induction l with
  | nil => intro i0 i; simp [assignLinksGo]
  | cons a t ih =>
    intro i0 i
    cases i with
    | zero => simp [assignLinksGo]
    | succ i =>
      simp only [assignLinksGo, List.getElem?_cons_succ]
      rw [ih (i0 + 1) i]
      have harith : i0 + 1 + i = i0 + (i + 1) := by omega
      rw [harith]

/-- C8: after `assignLinksToAccounts` with a non-empty `links` list,
the account at each index `i < links.length` is assigned `links[i]`
unconditionally, and every account at an index `≥ links.length` whose
`claimLink` is empty is assigned `links[0]` — the first link is
silently reused for every unassigned account (an account at such an
index whose `claimLink` is already non-empty is left unchanged). -/
theorem claim_C8_theorem (accounts : List AccountData) (links : List String)
    (hne : links ≠ []) :
    (assignLinksToAccounts accounts links).length = accounts.length ∧
    (∀ i a, accounts[i]? = some a →
      (assignLinksToAccounts accounts links)[i]? = some (assignLink links i a)) ∧
    (∀ i a link, accounts[i]? = some a → links[i]? = some link →
      assignLink links i a = { a with claimLink := link }) ∧
    (∀ i a, links.length ≤ i → a.claimLink = "" →
      assignLink links i a = { a with claimLink := links.headD "" } ∧
      links.headD "" = links.head hne) ∧
    (∀ i a, links.length ≤ i → a.claimLink ≠ "" → assignLink links i a = a) := by
  refine ⟨?_, ?_, ?_, ?_, ?_⟩
  · exact assignLinksGo_length links accounts 0
  · intro i a ha
    rw [assignLinksToAccounts, assignLinksGo_getElem links accounts 0 i, ha]
    simp
  · intro i a link ha hl
    rcases List.getElem?_eq_some.mp hl with ⟨hlt, hval⟩
    have hget : links.get ⟨i, hlt⟩ = link := hval
    rw [assignLink, dif_pos hlt, hget]
  · intro i a hge hempty
    constructor
    · rw [assignLink, dif_neg (by omega), if_pos hempty]
    · match links, hne with
      | x :: xs, _ => rfl
  · intro i a hge hnonempty
    rw [assignLink, dif_neg (by omega), if_neg hnonempty]

/-- Witness for `claim_C8_theorem`: three accounts and a single link
`"L"`: index 0 receives `links[0]` directly; index 1, beyond the list,
has an empty `claimLink` and silently receives the first link again;
index 2, with a pre-existing non-empty link, is left unchanged. -/
theorem claim_C8_witness :
    (assignLinksToAccounts
      [⟨1, "a", "p", "", "", .pending, "", "", none⟩,
       ⟨2, "b", "p", "", "", .pending, "", "", none⟩,
       ⟨3, "c", "p", "", "", .pending, "old", "", none⟩] ["L"])[0]?
      = some ⟨1, "a", "p", "", "", .pending, "L", "", none⟩ ∧
    (assignLinksToAccounts
      [⟨1, "a", "p", "", "", .pending, "", "", none⟩,
       ⟨2, "b", "p", "", "", .pending, "", "", none⟩,
       ⟨3, "c", "p", "", "", .pending, "old", "", none⟩] ["L"])[1]?
      = some ⟨2, "b", "p", "", "", .pending, "L", "", none⟩ ∧
    (assignLinksToAccounts
      [⟨1, "a", "p", "", "", .pending, "", "", none⟩,
       ⟨2, "b", "p", "", "", .pending, "", "", none⟩,
       ⟨3, "c", "p", "", "", .pending, "old", "", none⟩] ["L"])[2]?
      = some ⟨3, "c", "p", "", "", .pending, "old", "", none⟩ := by
  have h := claim_C8_theorem
    [⟨1, "a", "p", "", "", .pending, "", "", none⟩,
     ⟨2, "b", "p", "", "", .pending, "", "", none⟩,
     ⟨3, "c", "p", "", "", .pending, "old", "", none⟩] ["L"] (by simp)
  refine ⟨?_, ?_, ?_⟩
  · rw [h.2.1 0 ⟨1, "a", "p", "", "", .pending, "", "", none⟩ rfl]
    rfl
  · rw [h.2.1 1 ⟨2, "b", "p", "", "", .pending, "", "", none⟩ rfl]
    rfl
  · rw [h.2.1 2 ⟨3, "c", "p", "", "", .pending, "old", "", none⟩ rfl]
    rfl

end CocBot
